import Mathlib

/-!
Shallow embedding of `rocket_oauth2` (src/core.rs): the OAuth2 Authorization
Code Grant orchestrator.  Pure Rust functions become Lean functions; the
cookie jar and the HTTP outcome are threaded explicitly.  The host framework
(Rocket) is an external collaborator: its query-string form parsing, cookie
jar and configuration value types are modelled here at their interface
boundary, with plaintext cookies standing for the host's private
(encrypted/signed) cookie capability.
-/

/-- Model of `rocket::http::SameSite`. -/
inductive SameSite where
  | strict
  | lax
  | noRestriction
deriving DecidableEq, Repr

/-- Model of a Rocket cookie: the fields used by core.rs (`Cookie::build`
sets a name, a value and the SameSite attribute). -/
structure Cookie where
  name : String
  value : String
  same_site : Option SameSite
deriving DecidableEq, Repr

/-- The private cookie jar, modelled as the list of (already decrypted)
cookies.  `Cookies::get_private` retrieves a cookie by name. -/
def get_private (jar : List Cookie) (name : String) : Option Cookie :=
  jar.find? (fun c => c.name == name)

/-- `Cookies::remove` removes a cookie (by name) from the jar. -/
def remove_cookie (jar : List Cookie) (name : String) : List Cookie :=
  jar.filter (fun c => c.name != name)

/-- `Cookies::add_private` adds a cookie, replacing any cookie of the same
name already in the jar. -/
def add_private (jar : List Cookie) (c : Cookie) : List Cookie :=
  c :: remove_cookie jar c.name

/-- `STATE_COOKIE_NAME` from core.rs line 17. -/
def STATE_COOKIE_NAME : String := "rocket_oauth2_state"

/-- Model of `serde_json::Value` for the `extras` field of `TokenResponse`. -/
inductive JsonValue where
  | null
  | bool (b : Bool)
  | num (n : Int)
  | str (s : String)
deriving DecidableEq, Repr

/-- `TokenResponse` (core.rs lines 21-40): the token-endpoint reply per
RFC 6749 section 5.1. -/
structure TokenResponse where
  access_token : String
  token_type : String
  expires_in : Option Int
  refresh_token : Option String
  scope : Option String
  extras : List (String × JsonValue)
deriving DecidableEq, Repr

/-- `Provider` (core.rs lines 380-385): the pair of endpoint URIs. -/
structure Provider where
  auth_uri : String
  token_uri : String
deriving DecidableEq, Repr

/-- `OAuthConfig` (core.rs lines 94-99). -/
structure OAuthConfig where
  provider : Provider
  client_id : String
  client_secret : String
  redirect_uri : String
deriving DecidableEq, Repr

/-- `OAuthConfig::new` (core.rs lines 115-127): plain construction, no
validation. -/
def OAuthConfig.new (provider : Provider) (client_id : String)
    (client_secret : String) (redirect_uri : String) : OAuthConfig :=
  { provider := provider, client_id := client_id,
    client_secret := client_secret, redirect_uri := redirect_uri }

/-- The `Adapter` trait (core.rs lines 46-62), as a record of its two
operations.  `ε` is the adapter's associated `Error` type; the absolute
authorization URI is modelled as a string. -/
structure Adapter (ε : Type) where
  authorization_uri : OAuthConfig → List String → Except ε (String × String)
  exchange_code : OAuthConfig → String → Except ε TokenResponse

/-- Model of `rocket::http::Status` restricted to the statuses core.rs
uses. -/
inductive Status where
  | badRequest
  | internalServerError
deriving DecidableEq, Repr

/-- The numeric code of a status (400-class vs 500-class). -/
def Status.code : Status → Nat
  | .badRequest => 400
  | .internalServerError => 500

/-- Model of `rocket::handler::Outcome` for a handler producing responses of
type `ρ`. -/
inductive HandlerOutcome (ρ : Type) where
  | success (r : ρ)
  | failure (s : Status)
  | forward
deriving DecidableEq, Repr

/-- An incoming request, at the interface boundary used by core.rs: the raw
query string (absent when the URI has no query) and the private cookie
jar. -/
structure Request where
  query : Option String
  cookies : List Cookie
deriving DecidableEq, Repr

/-- The `OAuth2` structure (core.rs lines 191-196).  The `Callback` trait is
satisfied by any function of the request and token (core.rs lines 80-90), so
it is embedded directly as a function ρ-valued in the callback responder. -/
structure OAuth2 (ε ρ : Type) where
  adapter : Adapter ε
  callback : Request → TokenResponse → ρ
  config : OAuthConfig
  default_scopes : List String

/-!
Query-string form parsing (Rocket's `FormItems` / derived `FromForm`,
external to this repository, modelled at the interface boundary):
the query splits on the byte 38 separator into items, each a key and a
value around the first byte 61; an item with no such byte is malformed and
the whole parse fails; empty items are skipped; with lenient parsing,
items whose key is neither `code` nor `state` are ignored, a repeated key
keeps its last value, and both fields must be present.  Characters are
processed directly so everything reduces in the kernel.
-/

/-- Split a character list on a separator character. -/
def splitOnChar (sep : Char) : List Char → List (List Char)
  | [] => [[]]
  | c :: rest =>
    let r := splitOnChar sep rest
    if c = sep then [] :: r
    else
      match r with
      | [] => [[c]]
      | h :: t => (c :: h) :: t

/-- Split one form item at the first separator character, failing when the
item has none. -/
def splitItem (l : List Char) : Option (List Char × List Char) :=
  match l with
  | [] => none
  | c :: rest =>
    if c = '=' then some ([], rest)
    else (splitItem rest).map fun kv => (c :: kv.1, kv.2)

/-- Parse one nonempty form item into a key/value pair. -/
def parseFormItem (item : List Char) : Option (String × String) :=
  (splitItem item).map fun kv => (String.mk kv.1, String.mk kv.2)

/-- Parse a raw query string into its key/value items (`FormItems`). -/
def parseFormItems (q : String) : Option (List (String × String)) :=
  ((splitOnChar '&' q.data).filter (· ≠ [])).mapM parseFormItem

/-- The value of the last item with the given key, if any (the derived
`FromForm` assigns a field on each matching item, so the last value wins). -/
def lookupLast (items : List (String × String)) (key : String) :
    Option String :=
  ((items.filter (fun p => p.1 == key)).getLast?).map (·.2)

/-- The `CallbackQuery` struct derived inside `OAuth2::handle` (core.rs
lines 309-313). -/
structure CallbackQuery where
  code : String
  state : String
deriving DecidableEq, Repr

/-- `CallbackQuery::from_form` with lenient (non-strict) parsing: unknown
keys are ignored, both `code` and `state` must be present. -/
def CallbackQuery.from_form (items : List (String × String)) :
    Option CallbackQuery :=
  match lookupLast items "code", lookupLast items "state" with
  | some c, some s => some { code := c, state := s }
  | _, _ => none

/-- The full query parse performed by `OAuth2::handle` lines 307-318: the
query must be present, its items must parse, and `from_form` must find
`code` and `state`. -/
def Request.parsedQuery (req : Request) : Option CallbackQuery :=
  req.query.bind fun q => (parseFormItems q).bind CallbackQuery.from_form

/-- The result of one invocation of the redirect handler: the HTTP outcome,
the cookie jar after handling, and the traces of adapter/callback
invocations (codes passed to `exchange_code` and tokens passed to the
`Callback`, in order). -/
structure HandleResult (ε ρ : Type) where
  outcome : HandlerOutcome ρ
  cookies : List Cookie
  exchange_codes : List String
  callback_tokens : List TokenResponse

/-- The token-exchange tail of `OAuth2::handle` (core.rs lines 332-344),
entered after the state check succeeded and the cookie was removed:
`exchange_code` is called with the query's `code`; on failure the outcome is
a `BadRequest` failure carrying no error detail; on success the `Callback`
runs and its responder is the outcome. -/
def OAuth2.handleExchange {ε ρ : Type} (o : OAuth2 ε ρ) (req : Request)
    (params : CallbackQuery) (cookies' : List Cookie) : HandleResult ε ρ :=
  match o.adapter.exchange_code o.config params.code with
  | .ok token =>
    { outcome := .success (o.callback req token), cookies := cookies',
      exchange_codes := [params.code], callback_tokens := [token] }
  | .error _ =>
    { outcome := .failure .badRequest, cookies := cookies',
      exchange_codes := [params.code], callback_tokens := [] }

/-- The state-verification step of `OAuth2::handle` (core.rs lines
320-330): the private state cookie must exist and its value equal the
`state` parameter; on match the cookie is removed before the exchange,
otherwise the handler fails with `BadRequest`. -/
def OAuth2.handleVerify {ε ρ : Type} (o : OAuth2 ε ρ) (req : Request)
    (params : CallbackQuery) : HandleResult ε ρ :=
  match get_private req.cookies STATE_COOKIE_NAME with
  | some cookie =>
    if cookie.value = params.state then
      o.handleExchange req params (remove_cookie req.cookies STATE_COOKIE_NAME)
    else
      { outcome := .failure .badRequest, cookies := req.cookies,
        exchange_codes := [], callback_tokens := [] }
  | none =>
    { outcome := .failure .badRequest, cookies := req.cookies,
      exchange_codes := [], callback_tokens := [] }

/-- `OAuth2::handle` (core.rs lines 305-344). -/
def OAuth2.handle {ε ρ : Type} (o : OAuth2 ε ρ) (req : Request) :
    HandleResult ε ρ :=
  match req.query with
  | none =>
    { outcome := .failure .badRequest, cookies := req.cookies,
      exchange_codes := [], callback_tokens := [] }
  | some q =>
    match (parseFormItems q).bind CallbackQuery.from_form with
    | none =>
      { outcome := .failure .badRequest, cookies := req.cookies,
        exchange_codes := [], callback_tokens := [] }
    | some params => o.handleVerify req params

/-- Model of `rocket::response::Redirect::to` restricted to its target
URI. -/
structure Redirect where
  uri : String
deriving DecidableEq, Repr

/-- `Redirect::to`. -/
def Redirect.to (uri : String) : Redirect := { uri := uri }

/-- `OAuth2::get_redirect` (core.rs lines 287-299): ask the adapter for the
authorization URI and state, store the state in a private `SameSite=Lax`
cookie under the reserved name, and redirect to the URI.  The updated jar is
returned alongside the redirect. -/
def OAuth2.get_redirect {ε ρ : Type} (o : OAuth2 ε ρ) (cookies : List Cookie)
    (scopes : List String) : Except ε (Redirect × List Cookie) :=
  match o.adapter.authorization_uri o.config scopes with
  | .error e => .error e
  | .ok (uri, state) =>
    .ok (Redirect.to uri,
      add_private cookies
        { name := STATE_COOKIE_NAME, value := state,
          same_site := some SameSite.lax })

/-!
Configuration model (Rocket's `Config`/`Value`/`Table`, external to this
repository, modelled at the interface boundary as the TOML-style value
tree the code reads from).
-/

/-- Model of `rocket::config::Value` (a TOML value), covering the variants
the configuration schema can produce. -/
inductive Value where
  | str (s : String)
  | integer (n : Int)
  | boolean (b : Bool)
  | table (t : List (String × Value))

/-- A `Table` maps keys to values; modelled as an association list with the
first binding of a key authoritative. -/
abbrev Table := List (String × Value)

/-- Key lookup in a table. -/
def tableGet (t : Table) (key : String) : Option Value :=
  (t.find? (fun p => p.1 == key)).map (·.2)

/-- `Value::type_str`: the TOML type name of a value. -/
def Value.type_str : Value → String
  | .str _ => "string"
  | .integer _ => "integer"
  | .boolean _ => "boolean"
  | .table _ => "table"

/-- `Value::as_str`. -/
def Value.as_str : Value → Option String
  | .str s => some s
  | _ => none

/-- `Value::as_table`. -/
def Value.as_table : Value → Option Table
  | .table t => some t
  | _ => none

/-- Model of `rocket::config::ConfigError` restricted to the variants
core.rs produces; the `PathBuf` argument of `BadType` is modelled as a
string (always empty in core.rs). -/
inductive ConfigError where
  | missing (key : String)
  | badType (key expected actual path : String)
deriving DecidableEq, Repr

/-- Model of `rocket::Config` restricted to its extras table, which is
where `get_table("oauth")` looks. -/
structure Config where
  extras : Table

/-- `Config::get_table` (Rocket, interface boundary): the extra named
`name` must exist and be a table. -/
def Config.get_table (c : Config) (name : String) :
    Except ConfigError Table :=
  match tableGet c.extras name with
  | none => .error (.missing name)
  | some (.table t) => .ok t
  | some v => .error (.badType name "table" v.type_str "")

/-- `get_config_string` (core.rs lines 101-111): the key must be present
and hold a string. -/
def get_config_string (table : Table) (key : String) :
    Except ConfigError String :=
  match tableGet table key with
  | none => .error (.missing key)
  | some v =>
    match v.as_str with
    | none => .error (.badType key "string" v.type_str "")
    | some s => .ok s

/-- The `Discord` provider constant (core.rs line 442). -/
def Discord : Provider :=
  { auth_uri := "https://discordapp.com/api/oauth2/authorize",
    token_uri := "https://discordapp.com/api/oauth2/token" }

/-- The `Facebook` provider constant (core.rs line 443). -/
def Facebook : Provider :=
  { auth_uri := "https://www.facebook.com/v3.1/dialog/oauth",
    token_uri := "https://graph.facebook.com/v3.1/oauth/access_token" }

/-- The `GitHub` provider constant (core.rs line 444). -/
def GitHub : Provider :=
  { auth_uri := "https://github.com/login/oauth/authorize",
    token_uri := "https://github.com/login/oauth/access_token" }

/-- The `Google` provider constant (core.rs line 445). -/
def Google : Provider :=
  { auth_uri := "https://accounts.google.com/o/oauth2/v2/auth",
    token_uri := "https://www.googleapis.com/oauth2/v4/token" }

/-- The `Reddit` provider constant (core.rs line 446). -/
def Reddit : Provider :=
  { auth_uri := "https://www.reddit.com/api/v1/authorize",
    token_uri := "https://www.reddit.com/api/v1/access_token" }

/-- The `Yahoo` provider constant (core.rs line 447). -/
def Yahoo : Provider :=
  { auth_uri := "https://api.login.yahoo.com/oauth2/request_auth",
    token_uri := "https://api.login.yahoo.com/oauth2/get_token" }

/-- `Provider::from_known_name` (generated by the `providers!` macro,
core.rs lines 426-433): exact, case-sensitive match on the six
well-known names. -/
def Provider.from_known_name (name : String) : Option Provider :=
  if name = "Discord" then some Discord
  else if name = "Facebook" then some Facebook
  else if name = "GitHub" then some GitHub
  else if name = "Google" then some Google
  else if name = "Reddit" then some Reddit
  else if name = "Yahoo" then some Yahoo
  else none

/-- `Provider::from_config_value` (core.rs lines 388-411): a string names a
well-known provider; a table supplies custom `auth_uri`/`token_uri`; any
other shape (or an unknown name) is the fixed type error. -/
def Provider.from_config_value (conf : Value) : Except ConfigError Provider :=
  match conf with
  | .str s =>
    match Provider.from_known_name s with
    | some p => .ok p
    | none => .error (.badType "provider" "known provider or table" "" "")
  | .table t =>
    match get_config_string t "auth_uri" with
    | .error e => .error e
    | .ok auth_uri =>
      match get_config_string t "token_uri" with
      | .error e => .error e
      | .ok token_uri => .ok { auth_uri := auth_uri, token_uri := token_uri }
  | _ => .error (.badType "provider" "known provider or table" "" "")

/-- `OAuthConfig::from_config` (core.rs lines 130-155). -/
def OAuthConfig.from_config (config : Config) (name : String) :
    Except ConfigError OAuthConfig :=
  match config.get_table "oauth" with
  | .error e => .error e
  | .ok oauth =>
    match tableGet oauth name with
    | none => .error (.missing name)
    | some conf =>
      match conf.as_table with
      | none => .error (.badType name "table" conf.type_str "")
      | some table =>
        match
          (match tableGet table "provider" with
           | some v => Provider.from_config_value v
           | none => .error (.missing "provider")) with
        | .error e => .error e
        | .ok provider =>
          match get_config_string table "client_id" with
          | .error e => .error e
          | .ok client_id =>
            match get_config_string table "client_secret" with
            | .error e => .error e
            | .ok client_secret =>
              match get_config_string table "redirect_uri" with
              | .error e => .error e
              | .ok redirect_uri =>
                .ok (OAuthConfig.new provider client_id
                  client_secret redirect_uri)

/-!
Concrete fixtures used by witness and counterexample theorems.
-/

/-- A concrete token response `{access_token: "T", token_type: "bearer"}`. -/
def exToken : TokenResponse :=
  { access_token := "T", token_type := "bearer", expires_in := none,
    refresh_token := none, scope := none, extras := [] }

/-- A concrete configuration using the `GitHub` provider. -/
def exConfig : OAuthConfig :=
  OAuthConfig.new GitHub "client" "secret" "https://app.example/auth"

/-- A concrete adapter: issues state `abc`, and exchanges exactly the code
`XYZ` for `exToken`. -/
def exAdapter : Adapter Unit where
  authorization_uri := fun _ _ =>
    .ok ("https://github.com/login/oauth/authorize?client_id=client", "abc")
  exchange_code := fun _ code =>
    if code = "XYZ" then .ok exToken else .error ()

/-- An adapter whose every operation fails (a simulated network error). -/
def exFailingAdapter : Adapter Unit where
  authorization_uri := fun _ _ => .error ()
  exchange_code := fun _ _ => .error ()

/-- A concrete orchestrator whose callback responds with the access
token. -/
def exOAuth : OAuth2 Unit String :=
  { adapter := exAdapter, callback := fun _ t => t.access_token,
    config := exConfig, default_scopes := ["read", "write"] }

/-- The concrete orchestrator with the failing adapter. -/
def exOAuthFailing : OAuth2 Unit String :=
  { exOAuth with adapter := exFailingAdapter }

/-- The state cookie as stored by a concrete `get_redirect`. -/
def exStateCookie : Cookie :=
  { name := STATE_COOKIE_NAME, value := "abc", same_site := some SameSite.lax }

/-- A callback request whose `state` matches the stored cookie. -/
def exReq : Request :=
  { query := some "code=XYZ&state=abc", cookies := [exStateCookie] }

/-- A callback request whose `state` differs from the stored cookie. -/
def exReqMismatch : Request :=
  { query := some "code=XYZ&state=abd", cookies := [exStateCookie] }

/-- A callback request with a valid query but no CSRF cookie. -/
def exReqNoCookie : Request :=
  { query := some "code=XYZ&state=abc", cookies := [] }

/-- A callback request whose `state` is present but empty. -/
def exReqEmptyState : Request :=
  { query := some "code=XYZ&state=", cookies := [exStateCookie] }

/-- A configuration table whose `client_id` is the empty string (all keys
present and string-typed). -/
def cfgEmptyClientId : Config :=
  { extras := [("oauth", .table [("app", .table
      [("provider", .str "GitHub"), ("client_id", .str ""),
       ("client_secret", .str "s"), ("redirect_uri", .str "r")])])] }

/-!
Helper lemmas about the handler.
-/

/-- When the query parse fails at any stage, `handle` fails with
`BadRequest`, the jar is untouched and nothing was invoked. -/
theorem handle_of_parsedQuery_none {ε ρ : Type} (o : OAuth2 ε ρ)
    (req : Request) (h : req.parsedQuery = none) :
    o.handle req =
      { outcome := .failure .badRequest, cookies := req.cookies,
        exchange_codes := [], callback_tokens := [] } := by
  cases hq : req.query with
  | none => simp [OAuth2.handle, hq]
  | some q =>
    have h2 : (parseFormItems q).bind CallbackQuery.from_form = none := by
      simpa [Request.parsedQuery, hq] using h
    simp [OAuth2.handle, hq, h2]

/-- When the query parses, `handle` proceeds to state verification. -/
theorem handle_of_parsedQuery_some {ε ρ : Type} (o : OAuth2 ε ρ)
    (req : Request) (params : CallbackQuery)
    (h : req.parsedQuery = some params) :
    o.handle req = o.handleVerify req params := by
  rw [Request.parsedQuery] at h
  obtain ⟨q, hq, hp⟩ := Option.bind_eq_some.mp h
  simp [OAuth2.handle, hq, hp]

/-- With no state cookie, verification fails with `BadRequest`. -/
theorem handleVerify_cookie_none {ε ρ : Type} (o : OAuth2 ε ρ)
    (req : Request) (params : CallbackQuery)
    (h : get_private req.cookies STATE_COOKIE_NAME = none) :
    o.handleVerify req params =
      { outcome := .failure .badRequest, cookies := req.cookies,
        exchange_codes := [], callback_tokens := [] } := by
  simp [OAuth2.handleVerify, h]

/-- With a state cookie whose value differs from the `state` parameter,
verification fails with `BadRequest`. -/
theorem handleVerify_mismatch {ε ρ : Type} (o : OAuth2 ε ρ)
    (req : Request) (params : CallbackQuery) (cv : Cookie)
    (h : get_private req.cookies STATE_COOKIE_NAME = some cv)
    (hne : cv.value ≠ params.state) :
    o.handleVerify req params =
      { outcome := .failure .badRequest, cookies := req.cookies,
        exchange_codes := [], callback_tokens := [] } := by
  simp [OAuth2.handleVerify, h, hne]

/-- With a matching state cookie, verification removes the cookie and
proceeds to the exchange. -/
theorem handleVerify_match {ε ρ : Type} (o : OAuth2 ε ρ)
    (req : Request) (params : CallbackQuery) (cv : Cookie)
    (h : get_private req.cookies STATE_COOKIE_NAME = some cv)
    (heq : cv.value = params.state) :
    o.handleVerify req params =
      o.handleExchange req params
        (remove_cookie req.cookies STATE_COOKIE_NAME) := by
  simp [OAuth2.handleVerify, h, heq]

/-- Looking up a cookie after removing it by name finds nothing. -/
theorem get_private_remove_cookie (jar : List Cookie) (name : String) :
    get_private (remove_cookie jar name) name = none := by
  rw [get_private, List.find?_eq_none]
  intro c hc
  have hp := List.of_mem_filter hc
  simp only [bne_iff_ne, ne_eq, decide_eq_true_eq] at hp
  simpa using hp

/-- Claim C1: for every callback request, if the CSRF state cookie is
absent, or its value is not exactly equal to the request's `state` query
parameter, then `handle` returns a `BadRequest` failure and the adapter's
`exchange_code` is never invoked. -/
theorem C1_reject_without_state_match (ε ρ : Type) (o : OAuth2 ε ρ)
    (req : Request)
    (h : get_private req.cookies STATE_COOKIE_NAME = none ∨
      ∃ params cv, req.parsedQuery = some params ∧
        get_private req.cookies STATE_COOKIE_NAME = some cv ∧
        cv.value ≠ params.state) :
    (o.handle req).outcome = .failure .badRequest ∧
    (o.handle req).exchange_codes = [] := by
  rcases h with h | ⟨params, cv, hp, hc, hne⟩
  · cases hq : req.parsedQuery with
    | none => rw [handle_of_parsedQuery_none o req hq]; exact ⟨rfl, rfl⟩
    | some params =>
      rw [handle_of_parsedQuery_some o req params hq,
        handleVerify_cookie_none o req params h]
      exact ⟨rfl, rfl⟩
  · rw [handle_of_parsedQuery_some o req params hp,
      handleVerify_mismatch o req params cv hc hne]
    exact ⟨rfl, rfl⟩

/-- Witness for C1 at a concrete missing-cookie request and a concrete
mismatched-state request (cookie `abc`, query state `abd`). -/
theorem C1_witness :
    ((exOAuth.handle exReqNoCookie).outcome = .failure .badRequest ∧
      (exOAuth.handle exReqNoCookie).exchange_codes = []) ∧
    ((exOAuth.handle exReqMismatch).outcome = .failure .badRequest ∧
      (exOAuth.handle exReqMismatch).exchange_codes = []) := by
  have h1 := C1_reject_without_state_match Unit String exOAuth exReqNoCookie
    (Or.inl rfl)
  have h2 := C1_reject_without_state_match Unit String exOAuth exReqMismatch
    (Or.inr ⟨{ code := "XYZ", state := "abd" }, exStateCookie, rfl, rfl,
      by decide⟩)
  exact ⟨h1, h2⟩

/-- Claim C2: the CSRF state is single-use.  On a cookie/state match the
cookie is deleted before the exchange is attempted and regardless of the
exchange's result, and a second callback replaying the same `state` against
the resulting jar is rejected without any exchange. -/
theorem C2_state_single_use (ε ρ : Type) (o : OAuth2 ε ρ) (req : Request)
    (params : CallbackQuery) (cv : Cookie)
    (hp : req.parsedQuery = some params)
    (hc : get_private req.cookies STATE_COOKIE_NAME = some cv)
    (hm : cv.value = params.state) :
    (o.handle req).cookies = remove_cookie req.cookies STATE_COOKIE_NAME ∧
    get_private (o.handle req).cookies STATE_COOKIE_NAME = none ∧
    ∀ (req₂ : Request) (params₂ : CallbackQuery),
      req₂.cookies = (o.handle req).cookies →
      req₂.parsedQuery = some params₂ →
      params₂.state = params.state →
      (o.handle req₂).outcome = .failure .badRequest ∧
      (o.handle req₂).exchange_codes = [] := by
  have hh : o.handle req =
      o.handleExchange req params
        (remove_cookie req.cookies STATE_COOKIE_NAME) := by
    rw [handle_of_parsedQuery_some o req params hp]
    exact handleVerify_match o req params cv hc hm
  have hcook :
      (o.handle req).cookies = remove_cookie req.cookies STATE_COOKIE_NAME := by
    rw [hh, OAuth2.handleExchange]
    cases o.adapter.exchange_code o.config params.code <;> rfl
  refine ⟨hcook, ?_, ?_⟩
  · rw [hcook]; exact get_private_remove_cookie _ _
  · intro req₂ params₂ hjar hp₂ _
    have hnone : get_private req₂.cookies STATE_COOKIE_NAME = none := by
      rw [hjar, hcook]; exact get_private_remove_cookie _ _
    rw [handle_of_parsedQuery_some o req₂ params₂ hp₂,
      handleVerify_cookie_none o req₂ params₂ hnone]
    exact ⟨rfl, rfl⟩

/-- Witness for C2: a concrete matched callback clears the cookie, and
replaying the same query string against the resulting jar is rejected. -/
theorem C2_witness :
    get_private (exOAuth.handle exReq).cookies STATE_COOKIE_NAME = none ∧
    (exOAuth.handle
        { query := some "code=XYZ&state=abc",
          cookies := (exOAuth.handle exReq).cookies }).outcome =
      .failure .badRequest := by
  have h := C2_state_single_use Unit String exOAuth exReq
    { code := "XYZ", state := "abc" } exStateCookie rfl rfl rfl
  exact ⟨h.2.1,
    (h.2.2
      { query := some "code=XYZ&state=abc",
        cookies := (exOAuth.handle exReq).cookies }
      { code := "XYZ", state := "abc" } rfl rfl rfl).1⟩

/-- Claim C3: happy path.  On a cookie/state match, `exchange_code` is
invoked exactly once with the request's `code` parameter, and when it
returns a token the `Callback` is invoked exactly once with that exact
token and its responder is the final outcome. -/
theorem C3_happy_path (ε ρ : Type) (o : OAuth2 ε ρ) (req : Request)
    (params : CallbackQuery) (cv : Cookie)
    (hp : req.parsedQuery = some params)
    (hc : get_private req.cookies STATE_COOKIE_NAME = some cv)
    (hm : cv.value = params.state) :
    (o.handle req).exchange_codes = [params.code] ∧
    ∀ token, o.adapter.exchange_code o.config params.code = .ok token →
      (o.handle req).callback_tokens = [token] ∧
      (o.handle req).outcome = .success (o.callback req token) := by
  have hh : o.handle req =
      o.handleExchange req params
        (remove_cookie req.cookies STATE_COOKIE_NAME) := by
    rw [handle_of_parsedQuery_some o req params hp]
    exact handleVerify_match o req params cv hc hm
  constructor
  · rw [hh, OAuth2.handleExchange]
    cases o.adapter.exchange_code o.config params.code <;> rfl
  · intro token ht
    rw [hh, OAuth2.handleExchange, ht]
    exact ⟨rfl, rfl⟩

/-- Witness for C3: the concrete matched callback exchanges `XYZ` once,
passes the token `{access_token: "T", token_type: "bearer"}` to the
callback once, and responds with the callback's value `"T"`. -/
theorem C3_witness :
    (exOAuth.handle exReq).exchange_codes = ["XYZ"] ∧
    (exOAuth.handle exReq).callback_tokens = [exToken] ∧
    (exOAuth.handle exReq).outcome = .success "T" := by
  have h := C3_happy_path Unit String exOAuth exReq
    { code := "XYZ", state := "abc" } exStateCookie rfl rfl rfl
  have h2 := h.2 exToken rfl
  exact ⟨h.1, h2.1, h2.2⟩

/-- Claim C4: if `exchange_code` fails with any adapter error, `handle`
fails with `BadRequest` and the `Callback` is never invoked.  The outcome
is the same fixed `BadRequest` value for every error `e`, so no adapter
error detail reaches the response. -/
theorem C4_exchange_failure (ε ρ : Type) (o : OAuth2 ε ρ) (req : Request)
    (params : CallbackQuery) (cv : Cookie) (e : ε)
    (hp : req.parsedQuery = some params)
    (hc : get_private req.cookies STATE_COOKIE_NAME = some cv)
    (hm : cv.value = params.state)
    (he : o.adapter.exchange_code o.config params.code = .error e) :
    (o.handle req).outcome = .failure .badRequest ∧
    (o.handle req).callback_tokens = [] := by
  have hh : o.handle req =
      o.handleExchange req params
        (remove_cookie req.cookies STATE_COOKIE_NAME) := by
    rw [handle_of_parsedQuery_some o req params hp]
    exact handleVerify_match o req params cv hc hm
  rw [hh, OAuth2.handleExchange, he]
  exact ⟨rfl, rfl⟩

/-- Witness for C4: with the failing adapter, the matched callback is
rejected and the callback never runs. -/
theorem C4_witness :
    (exOAuthFailing.handle exReq).outcome = .failure .badRequest ∧
    (exOAuthFailing.handle exReq).callback_tokens = [] := by
  exact C4_exchange_failure Unit String exOAuthFailing exReq
    { code := "XYZ", state := "abc" } exStateCookie () rfl rfl rfl rfl

/-- Claim C5: when the adapter returns an authorization URI and state,
`get_redirect` stores exactly that state value in a private cookie under
the reserved name with `SameSite=Lax`, and returns a redirect to exactly
the adapter's URI; the stored cookie is retrievable under the reserved
name. -/
theorem C5_get_redirect_stores_state (ε ρ : Type) (o : OAuth2 ε ρ)
    (cookies : List Cookie) (scopes : List String) (uri state : String)
    (h : o.adapter.authorization_uri o.config scopes = .ok (uri, state)) :
    o.get_redirect cookies scopes =
      .ok (Redirect.to uri,
        add_private cookies
          { name := STATE_COOKIE_NAME, value := state,
            same_site := some SameSite.lax }) ∧
    get_private
        (add_private cookies
          { name := STATE_COOKIE_NAME, value := state,
            same_site := some SameSite.lax })
        STATE_COOKIE_NAME =
      some { name := STATE_COOKIE_NAME, value := state,
             same_site := some SameSite.lax } := by
  constructor
  · simp [OAuth2.get_redirect, h]
  · simp [get_private, add_private, List.find?]

/-- Witness for C5: the concrete adapter issues state `abc`; the redirect
targets its URI and the jar holds the `SameSite=Lax` state cookie. -/
theorem C5_witness :
    exOAuth.get_redirect [] ["read", "write"] =
      .ok (Redirect.to "https://github.com/login/oauth/authorize?client_id=client",
        add_private []
          { name := STATE_COOKIE_NAME, value := "abc",
            same_site := some SameSite.lax }) ∧
    get_private
        (add_private []
          { name := STATE_COOKIE_NAME, value := "abc",
            same_site := some SameSite.lax })
        STATE_COOKIE_NAME =
      some { name := STATE_COOKIE_NAME, value := "abc",
             same_site := some SameSite.lax } := by
  exact C5_get_redirect_stores_state Unit String exOAuth [] ["read", "write"]
    "https://github.com/login/oauth/authorize?client_id=client" "abc" rfl

/-- Claim C6: a callback request whose query is absent, malformed, or
missing `code` or `state` is rejected with `BadRequest` and nothing is
exchanged; query items other than `code` and `state` are ignored by the
form parse and do not affect its result. -/
theorem C6_query_parsing :
    (∀ (ε ρ : Type) (o : OAuth2 ε ρ) (req : Request),
      req.parsedQuery = none →
      (o.handle req).outcome = .failure .badRequest ∧
      (o.handle req).exchange_codes = []) ∧
    (∀ cookies : List Cookie,
      Request.parsedQuery { query := none, cookies := cookies } = none) ∧
    (∀ items : List (String × String),
      lookupLast items "code" = none ∨ lookupLast items "state" = none →
      CallbackQuery.from_form items = none) ∧
    (∀ (k v : String) (l₁ l₂ : List (String × String)),
      k ≠ "code" → k ≠ "state" →
      CallbackQuery.from_form (l₁ ++ (k, v) :: l₂) =
        CallbackQuery.from_form (l₁ ++ l₂)) := by
  refine ⟨?_, ?_, ?_, ?_⟩
  · intro ε ρ o req h
    rw [handle_of_parsedQuery_none o req h]
    exact ⟨rfl, rfl⟩
  · intro cookies
    rfl
  · intro items h
    rcases h with h | h
    · simp [CallbackQuery.from_form, h]
    · cases hc : lookupLast items "code" <;>
        simp [CallbackQuery.from_form, hc, h]
  · intro k v l₁ l₂ hk hs
    simp [CallbackQuery.from_form, lookupLast, List.filter_append,
      List.filter_cons, hk, hs]

/-- Witness for C6: a request with no query is rejected; a query carrying
`code` but no `state` fails the form parse; an unrelated `foo` item does
not change the parse. -/
theorem C6_witness :
    ((exOAuth.handle { query := none, cookies := [exStateCookie] }).outcome =
      .failure .badRequest) ∧
    CallbackQuery.from_form [("code", "XYZ")] = none ∧
    CallbackQuery.from_form
        ([("code", "XYZ")] ++ ("foo", "1") :: [("state", "abc")]) =
      CallbackQuery.from_form ([("code", "XYZ")] ++ [("state", "abc")]) := by
  obtain ⟨ha, hb, hc, hd⟩ := C6_query_parsing
  exact ⟨(ha Unit String exOAuth _ (hb [exStateCookie])).1,
    hc [("code", "XYZ")] (Or.inr rfl),
    hd "foo" "1" [("code", "XYZ")] [("state", "abc")] (by decide) (by decide)⟩

/-- Claim C7: the state check is exact string equality — the exchange is
attempted precisely when the cookie value equals the `state` parameter —
and under a non-empty reachable cookie state a present-but-empty `state`
parameter never matches, so the request is rejected. -/
theorem C7_exact_state_equality (ε ρ : Type) (o : OAuth2 ε ρ) (req : Request)
    (params : CallbackQuery) (cv : Cookie)
    (hp : req.parsedQuery = some params)
    (hc : get_private req.cookies STATE_COOKIE_NAME = some cv) :
    ((o.handle req).exchange_codes ≠ [] ↔ cv.value = params.state) ∧
    (cv.value ≠ "" → params.state = "" →
      (o.handle req).outcome = .failure .badRequest ∧
      (o.handle req).exchange_codes = []) := by
  have hrej : cv.value ≠ params.state →
      (o.handle req).outcome = .failure .badRequest ∧
      (o.handle req).exchange_codes = [] := by
    intro hne
    rw [handle_of_parsedQuery_some o req params hp,
      handleVerify_mismatch o req params cv hc hne]
    exact ⟨rfl, rfl⟩
  constructor
  · by_cases heq : cv.value = params.state
    · have hh : o.handle req =
          o.handleExchange req params
            (remove_cookie req.cookies STATE_COOKIE_NAME) := by
        rw [handle_of_parsedQuery_some o req params hp]
        exact handleVerify_match o req params cv hc heq
      have : (o.handle req).exchange_codes = [params.code] := by
        rw [hh, OAuth2.handleExchange]
        cases o.adapter.exchange_code o.config params.code <;> rfl
      simp [this, heq]
    · simp [(hrej heq).2, heq]
  · intro hne h0
    exact hrej (h0 ▸ hne)

/-- Witness for C7: cookie `abc` with an empty `state` parameter is
rejected without an exchange. -/
theorem C7_witness :
    (exOAuth.handle exReqEmptyState).outcome = .failure .badRequest ∧
    (exOAuth.handle exReqEmptyState).exchange_codes = [] := by
  have h := C7_exact_state_equality Unit String exOAuth exReqEmptyState
    { code := "XYZ", state := "" } exStateCookie rfl rfl
  exact h.2 (by decide) rfl

/-- Claim C10: frame property — whenever the callback handler rejects a
request before a successful state match (absent or malformed query,
missing `code`/`state`, absent cookie, or mismatched cookie value), the
cookie jar is left exactly as it was. -/
theorem C10_reject_preserves_cookies (ε ρ : Type) (o : OAuth2 ε ρ)
    (req : Request)
    (h : req.parsedQuery = none ∨
      ∃ params, req.parsedQuery = some params ∧
        ∀ cv, get_private req.cookies STATE_COOKIE_NAME = some cv →
          cv.value ≠ params.state) :
    (o.handle req).cookies = req.cookies := by
  rcases h with h | ⟨params, hp, hcv⟩
  · rw [handle_of_parsedQuery_none o req h]
  · rw [handle_of_parsedQuery_some o req params hp]
    cases hc : get_private req.cookies STATE_COOKIE_NAME with
    | none => rw [handleVerify_cookie_none o req params hc]
    | some cv => rw [handleVerify_mismatch o req params cv hc (hcv cv hc)]

/-- Witness for C10: a mismatched-state request and a malformed-query
request both leave the pending state cookie in place. -/
theorem C10_witness :
    (exOAuth.handle exReqMismatch).cookies = [exStateCookie] ∧
    (exOAuth.handle
        { query := some "code", cookies := [exStateCookie] }).cookies =
      [exStateCookie] := by
  have h1 := C10_reject_preserves_cookies Unit String exOAuth exReqMismatch
    (Or.inr ⟨{ code := "XYZ", state := "abd" }, rfl, by
      intro cv hcv
      have h2 : some exStateCookie = some cv := hcv
      cases Option.some.inj h2
      decide⟩)
  have h2 := C10_reject_preserves_cookies Unit String exOAuth
    { query := some "code", cookies := [exStateCookie] } (Or.inl rfl)
  exact ⟨h1, h2⟩

/-- `get_config_string` succeeds exactly when the key holds a string, and
returns that string (possibly empty). -/
theorem get_config_string_ok (t : Table) (k s : String) :
    get_config_string t k = .ok s ↔ tableGet t k = some (.str s) := by
  rw [get_config_string]
  cases h : tableGet t k with
  | none => simp
  | some v => cases v <;> simp [Value.as_str]

/-- Counterexample for C8: `from_config` accepts a configuration whose
`client_id` is the empty string, and the resulting `OAuthConfig` has an
empty `client_id`; neither constructor enforces non-emptiness, so the
claimed invariant fails. -/
theorem C8_counterexample :
    OAuthConfig.from_config cfgEmptyClientId "app" =
      .ok (OAuthConfig.new GitHub "" "s" "r") ∧
    (OAuthConfig.new GitHub "" "s" "r").client_id = "" := ⟨rfl, rfl⟩

/-- Claim C8 (amended): `new` performs no validation and returns exactly
the supplied fields; `from_config` validates that every field is present
and correctly typed — its errors identify the missing or mistyped key and
the expected type — and on success each field is exactly the (possibly
empty) string stored in the configuration, with the provider resolved from
the `provider` entry.  Non-emptiness is not enforced. -/
theorem C8_presence_and_type_validation :
    (∀ (p : Provider) (ci cs ru : String),
      (OAuthConfig.new p ci cs ru).provider = p ∧
      (OAuthConfig.new p ci cs ru).client_id = ci ∧
      (OAuthConfig.new p ci cs ru).client_secret = cs ∧
      (OAuthConfig.new p ci cs ru).redirect_uri = ru) ∧
    (∀ (t : Table) (k : String), tableGet t k = none →
      get_config_string t k = .error (.missing k)) ∧
    (∀ (t : Table) (k : String) (v : Value),
      tableGet t k = some v → v.as_str = none →
      get_config_string t k = .error (.badType k "string" v.type_str "")) ∧
    (∀ (cfg : Config) (name : String) (c : OAuthConfig),
      OAuthConfig.from_config cfg name = .ok c →
      ∃ (oauthT entryT : Table) (pv : Value),
        Config.get_table cfg "oauth" = .ok oauthT ∧
        tableGet oauthT name = some (.table entryT) ∧
        tableGet entryT "provider" = some pv ∧
        Provider.from_config_value pv = .ok c.provider ∧
        tableGet entryT "client_id" = some (.str c.client_id) ∧
        tableGet entryT "client_secret" = some (.str c.client_secret) ∧
        tableGet entryT "redirect_uri" = some (.str c.redirect_uri)) := by
  refine ⟨?_, ?_, ?_, ?_⟩
  · intro p ci cs ru
    exact ⟨rfl, rfl, rfl, rfl⟩
  · intro t k h
    simp [get_config_string, h]
  · intro t k v hv hs
    simp [get_config_string, hv, hs]
  · intro cfg name c h
    rw [OAuthConfig.from_config] at h
    cases h1 : Config.get_table cfg "oauth" with
    | error e => simp [h1] at h
    | ok oauthT =>
      simp only [h1] at h
      cases h2 : tableGet oauthT name with
      | none => simp [h2] at h
      | some conf =>
        simp only [h2] at h
        cases h3 : conf.as_table with
        | none => simp [h3] at h
        | some entryT =>
          simp only [h3] at h
          cases h4 : tableGet entryT "provider" with
          | none => simp [h4] at h
          | some pv =>
            simp only [h4] at h
            cases h5 : Provider.from_config_value pv with
            | error e => simp [h5] at h
            | ok p =>
              simp only [h5] at h
              cases h6 : get_config_string entryT "client_id" with
              | error e => simp [h6] at h
              | ok ci =>
                simp only [h6] at h
                cases h7 : get_config_string entryT "client_secret" with
                | error e => simp [h7] at h
                | ok cs =>
                  simp only [h7] at h
                  cases h8 : get_config_string entryT "redirect_uri" with
                  | error e => simp [h8] at h
                  | ok ru =>
                    simp only [h8, Except.ok.injEq] at h
                    have hconf : conf = Value.table entryT := by
                      cases conf <;> simp_all [Value.as_table]
                    subst h
                    exact ⟨oauthT, entryT, pv, rfl, hconf ▸ h2, h4, h5,
                      (get_config_string_ok entryT "client_id" ci).mp h6,
                      (get_config_string_ok entryT "client_secret" cs).mp h7,
                      (get_config_string_ok entryT "redirect_uri" ru).mp h8⟩

/-- Witness for C8 (amended): unvalidated `new`, a missing `client_id`
reported by key, and an integer-typed `client_id` reported with the
expected type `string`. -/
theorem C8_witness :
    (OAuthConfig.new GitHub "a" "b" "c").client_id = "a" ∧
    get_config_string [] "client_id" = .error (.missing "client_id") ∧
    get_config_string [("client_id", Value.integer 3)] "client_id" =
      .error (.badType "client_id" "string" "integer" "") := by
  obtain ⟨h1, h2, h3, _⟩ := C8_presence_and_type_validation
  exact ⟨(h1 GitHub "a" "b" "c").2.1, h2 [] "client_id" rfl,
    h3 [("client_id", Value.integer 3)] "client_id" (Value.integer 3) rfl rfl⟩

/-- Claim C9: registry round trip.  Each of the six well-known provider
names, matched exactly and case-sensitively, resolves to its documented
endpoint pair; any other name is not found, which `from_config_value`
surfaces as a configuration error; and a custom provider table exactly
reflects the supplied URIs. -/
theorem C9_provider_registry :
    (Provider.from_known_name "Discord" =
        some { auth_uri := "https://discordapp.com/api/oauth2/authorize",
               token_uri := "https://discordapp.com/api/oauth2/token" } ∧
      Provider.from_known_name "Facebook" =
        some { auth_uri := "https://www.facebook.com/v3.1/dialog/oauth",
               token_uri := "https://graph.facebook.com/v3.1/oauth/access_token" } ∧
      Provider.from_known_name "GitHub" =
        some { auth_uri := "https://github.com/login/oauth/authorize",
               token_uri := "https://github.com/login/oauth/access_token" } ∧
      Provider.from_known_name "Google" =
        some { auth_uri := "https://accounts.google.com/o/oauth2/v2/auth",
               token_uri := "https://www.googleapis.com/oauth2/v4/token" } ∧
      Provider.from_known_name "Reddit" =
        some { auth_uri := "https://www.reddit.com/api/v1/authorize",
               token_uri := "https://www.reddit.com/api/v1/access_token" } ∧
      Provider.from_known_name "Yahoo" =
        some { auth_uri := "https://api.login.yahoo.com/oauth2/request_auth",
               token_uri := "https://api.login.yahoo.com/oauth2/get_token" }) ∧
    (∀ n : String,
      n ∉ (["Discord", "Facebook", "GitHub", "Google", "Reddit", "Yahoo"] :
        List String) →
      Provider.from_known_name n = none) ∧
    (∀ s : String, Provider.from_known_name s = none →
      Provider.from_config_value (.str s) =
        .error (.badType "provider" "known provider or table" "" "")) ∧
    (∀ (a t : String) (rest : Table),
      Provider.from_config_value
          (.table (("auth_uri", .str a) :: ("token_uri", .str t) :: rest)) =
        .ok { auth_uri := a, token_uri := t }) := by
  refine ⟨⟨rfl, rfl, rfl, rfl, rfl, rfl⟩, ?_, ?_, ?_⟩
  · intro n hn
    simp only [List.mem_cons, List.not_mem_nil, or_false, not_or] at hn
    obtain ⟨h1, h2, h3, h4, h5, h6⟩ := hn
    rw [Provider.from_known_name, if_neg h1, if_neg h2, if_neg h3, if_neg h4,
      if_neg h5, if_neg h6]
  · intro s h
    simp [Provider.from_config_value, h]
  · intro a t rest
    rfl

/-- Witness for C9: the lowercase name `discord` is unknown and yields the
configuration error, and a concrete custom table reflects its URIs. -/
theorem C9_witness :
    Provider.from_known_name "discord" = none ∧
    Provider.from_config_value (.str "discord") =
      .error (.badType "provider" "known provider or table" "" "") ∧
    Provider.from_config_value
        (.table [("auth_uri", .str "https://a.example/auth"),
          ("token_uri", .str "https://a.example/token")]) =
      .ok { auth_uri := "https://a.example/auth",
            token_uri := "https://a.example/token" } := by
  have h := C9_provider_registry
  have hu := h.2.1 "discord" (by decide)
  exact ⟨hu, h.2.2.1 "discord" hu,
    h.2.2.2 "https://a.example/auth" "https://a.example/token" []⟩
